import Mathlib

/-!
Shallow embedding of `converter.py` (Vixert file-converter CLI).

The program is a single-file CLI with four conversion routines
(`pdf_to_image`, `pdf_to_docx`, `docx_to_pdf`, `image_to_image`) and a
dispatcher `main` that selects one of them from the lowercased
`--output_format` argument after checking that the input file exists.

Modelling decisions:
* The filesystem is a map from path strings to optional file data.
* The third-party library entry points (`pdf2image.convert_from_path`,
  `docx.Document`, `PIL.Image.open`, and the `fpdf.FPDF` methods) are not
  part of the repository; they are modelled abstractly at the granularity
  the program observes: a parse either succeeds on a file of the right
  kind or raises, and `FPDF` accumulates pages of text cells.
* Python exceptions are `Except String`: a routine containing a
  `try/except` returns a plain event list (it can never raise); a routine
  without one returns `Except String (List Event)` and propagates errors.
* Observable behaviour is a list of events: console prints and file
  writes.  A Python process that ends with an uncaught exception exits
  nonzero; `exitCode` maps an `Except` result to that status.
-/

namespace Converter

/-- Raster image data, abstract (the program never inspects pixels). -/
abbrev Img := Nat

/-- One text cell emitted by `FPDF.multi_cell`: the font family and size in
force at the call, and the cell text. -/
structure Cell where
  font : String
  size : Nat
  text : String
deriving DecidableEq, Repr

/-- Contents of a file, at the granularity the program distinguishes:
a PDF (a list of renderable pages), a DOCX (a list of paragraph texts),
a raster image, a produced FPDF document (pages of text cells), or
anything else (unparseable by all three libraries). -/
inductive FileData where
  | pdf (pages : List Img)
  | docx (paras : List String)
  | img (i : Img)
  | pdfdoc (pages : List (List Cell))
  | other (raw : String)
deriving DecidableEq, Repr

/-- A filesystem: which regular file, if any, each path names
(`os.path.isfile p` is `(fs p).isSome`). -/
abbrev FS := String → Option FileData

/-- Observable effects of one run: console output and file writes. -/
inductive Event where
  | print (msg : String)
  | write (path : String) (data : FileData)
deriving DecidableEq, Repr

/-- ASCII lowercasing of one character, as Python's `str.lower` acts on
the ASCII format strings this CLI compares against. -/
def char_lower (c : Char) : Char :=
  if 'A' ≤ c ∧ c ≤ 'Z' then Char.ofNat (c.toNat + 32) else c

/-- Python's `str.lower()` on the argument string (`args.output_format.lower()`). -/
def str_lower (s : String) : String := ⟨s.data.map char_lower⟩

/-- Index of the last occurrence of `c` in `l`, if any (Python `str.rfind`). -/
def lastIndexOf : List Char → Char → Option Nat
  | [], _ => none
  | a :: as, c =>
    match lastIndexOf as c with
    | some i => some (i + 1)
    | none => if a = c then some 0 else none

/-- `os.path.join a b` (posix): `b` if `b` is absolute, else `a`
and `b` separated by exactly one slash. -/
def path_join (a b : String) : String :=
  if b.data.head? = some '/' then b
  else if a = "" then b
  else if a.data.getLast? = some '/' then a ++ b
  else a ++ "/" ++ b

/-- `os.path.splitext p` (posix): split at the last dot of the final path
component, unless every character of that component before the dot is
itself a dot (leading-dot filenames such as `.bashrc` have no extension). -/
def splitext (p : String) : String × String :=
  let l := p.data
  match lastIndexOf l '.' with
  | none => (p, "")
  | some d =>
    let start : Nat :=
      match lastIndexOf l '/' with
      | none => 0
      | some s2 => s2 + 1
    if ((l.drop start).take (d - start)).any (fun c => c ≠ '.') then
      (⟨l.take d⟩, ⟨l.drop d⟩)
    else (p, "")

/-- `pdf2image.convert_from_path` (library call, modelled abstractly):
renders each page of a PDF file to an image, raising on a missing or
non-PDF file. -/
def convert_from_path (fs : FS) (p : String) : Except String (List Img) :=
  match fs p with
  | some (FileData.pdf pages) => Except.ok pages
  | some _ => Except.error "Unable to get page count. Is poppler installed and in PATH?"
  | none => Except.error "File not found"

/-- `docx.Document` (library call, modelled abstractly): parses a DOCX
file into its paragraph texts in document order, raising on a missing or
non-DOCX file. -/
def Document (fs : FS) (p : String) : Except String (List String) :=
  match fs p with
  | some (FileData.docx paras) => Except.ok paras
  | some _ => Except.error "File is not a zip file"
  | none => Except.error "Package not found"

/-- `PIL.Image.open` (library call, modelled abstractly): opens an image
file, raising on a missing or non-image file. -/
def image_open (fs : FS) (p : String) : Except String Img :=
  match fs p with
  | some (FileData.img i) => Except.ok i
  | some _ => Except.error "cannot identify image file"
  | none => Except.error "No such file or directory"

/-- State of an `fpdf.FPDF` document under construction: the pages of text
cells emitted so far and the current font/page-break settings. -/
structure FPDF where
  pages : List (List Cell)
  cur_font : String
  cur_size : Nat
  auto_break : Bool
  break_margin : Nat
deriving DecidableEq, Repr

/-- `FPDF()` constructor: no pages, no font selected. -/
def FPDF.new : FPDF := ⟨[], "", 0, false, 0⟩

/-- `pdf.set_auto_page_break(auto=True, margin=15)`. -/
def FPDF.set_auto_page_break (pdf : FPDF) (auto : Bool) (margin : Nat) : FPDF :=
  { pdf with auto_break := auto, break_margin := margin }

/-- `pdf.add_page()`: appends a fresh empty page. -/
def FPDF.add_page (pdf : FPDF) : FPDF := { pdf with pages := pdf.pages ++ [[]] }

/-- `pdf.set_font("Arial", size=12)`. -/
def FPDF.set_font (pdf : FPDF) (f : String) (size : Nat) : FPDF :=
  { pdf with cur_font := f, cur_size := size }

/-- Append a cell to the last page of a page list (a cell emitted with no
page open is placed on a fresh page; the program never does this, since it
calls `add_page` first). -/
def appendToLastPage : List (List Cell) → Cell → List (List Cell)
  | [], c => [[c]]
  | [pg], c => [pg ++ [c]]
  | pg :: rest, c => pg :: appendToLastPage rest c

/-- `pdf.multi_cell(0, 10, txt)` (library call, modelled abstractly): emits
`txt` as a wrapped cell in the current font on the current (last) page.
Auto page-breaking inside the library never reorders or drops cell text,
so the model keeps each cell on the page current at the call. -/
def FPDF.multi_cell (pdf : FPDF) (_w _h : Nat) (txt : String) : FPDF :=
  { pdf with pages := appendToLastPage pdf.pages ⟨pdf.cur_font, pdf.cur_size, txt⟩ }

/-- Text content of a produced PDF document: the cell texts in page order
(`text-extraction round-trip` of the spec). -/
def pdfdocText (pages : List (List Cell)) : List String :=
  pages.flatten.map Cell.text

/-- `pdf_to_image` (converter.py lines 8-14): render every page, saving
page `i` (0-based) as `output_<i+1>.<format>` in the output directory; a
broad `except` turns any failure into a printed diagnostic. -/
def pdf_to_image (fs : FS) (input_file output_dir output_format : String) : List Event :=
  match convert_from_path fs input_file with
  | Except.ok images =>
    images.enum.map (fun p =>
      Event.write (path_join output_dir ("output_" ++ toString (p.1 + 1) ++ "." ++ output_format))
        (FileData.img p.2))
  | Except.error e => [Event.print ("Error converting PDF to image: " ++ e)]

/-- `pdf_to_docx` (converter.py lines 16-18): unimplemented stub; prints a
diagnostic and ignores both arguments. -/
def pdf_to_docx (_input_file _output_file : String) : List Event :=
  [Event.print "PDF to DOCX conversion is not implemented yet."]

/-- `docx_to_pdf` (converter.py lines 20-30): parse the input DOCX, build
an FPDF with auto page break (margin 15), one initial page, and one
12pt-Arial `multi_cell` per paragraph in order, then write it to
`output_file`.  There is no `try/except` here: a parse failure raises. -/
def docx_to_pdf (fs : FS) (input_file output_file : String) : Except String (List Event) :=
  match Document fs input_file with
  | Except.error e => Except.error e
  | Except.ok doc_paragraphs =>
    let pdf := FPDF.new
    let pdf := pdf.set_auto_page_break true 15
    let pdf := pdf.add_page
    let pdf := doc_paragraphs.foldl
      (fun pdf para => (pdf.set_font "Arial" 12).multi_cell 0 10 para) pdf
    Except.ok [Event.write output_file (FileData.pdfdoc pdf.pages)]

/-- `image_to_image` (converter.py lines 32-38): open the input image and
save it at `os.path.splitext(input_file)[0] + '.' + output_format` (the
routine takes no output-directory argument); a broad `except` turns any
failure into a printed diagnostic. -/
def image_to_image (fs : FS) (input_file output_format : String) : List Event :=
  match image_open fs input_file with
  | Except.ok img =>
    [Event.write ((splitext input_file).1 ++ ("." ++ output_format)) (FileData.img img)]
  | Except.error e => [Event.print ("Error converting image: " ++ e)]

/-- The six ways a run can go after argument parsing. -/
inductive Branch where
  | notFound
  | pdfToImage
  | pdfToDocx
  | docxToPdf
  | imageToImage
  | unsupported
deriving DecidableEq, Repr

/-- The dispatch chain of `main` (converter.py lines 56-65), as the ordered
string-equality checks of the source, applied to the lowercased format:
`jpg`/`png`, then `docx`, then `pdf`, then the duplicate
`in ['jpg', 'png']` membership test, else unsupported. -/
def dispatch (output_format : String) : Branch :=
  if output_format = "jpg" ∨ output_format = "png" then Branch.pdfToImage
  else if output_format = "docx" then Branch.pdfToDocx
  else if output_format = "pdf" then Branch.docxToPdf
  else if output_format ∈ ["jpg", "png"] then Branch.imageToImage
  else Branch.unsupported

/-- Which branch a `main` invocation takes: the `os.path.isfile` guard
(converter.py lines 52-54), then `dispatch` on the lowercased format. -/
def mainBranch (fs : FS) (input_file raw_format : String) : Branch :=
  if (fs input_file).isNone then Branch.notFound
  else dispatch (str_lower raw_format)

/-- `main` (converter.py lines 40-65) after argument parsing: lowercase the
format, check the input file exists, and run the selected routine.  The
branch order is exactly the source's `if/elif` chain, factored through
`mainBranch`.  Only `docx_to_pdf` can raise; every other branch returns
normally. -/
def main (fs : FS) (input raw_format output_dir : String) : Except String (List Event) :=
  let input_file := input
  let output_format := str_lower raw_format
  match mainBranch fs input_file raw_format with
  | Branch.notFound => Except.ok [Event.print "Error: Input file not found."]
  | Branch.pdfToImage => Except.ok (pdf_to_image fs input_file output_dir output_format)
  | Branch.pdfToDocx => Except.ok (pdf_to_docx input_file (path_join output_dir "output.docx"))
  | Branch.docxToPdf => docx_to_pdf fs input_file (path_join output_dir "output.pdf")
  | Branch.imageToImage => Except.ok (image_to_image fs input_file output_format)
  | Branch.unsupported => Except.ok [Event.print "Error: Unsupported output format."]

instance {ε α : Type} [DecidableEq ε] [DecidableEq α] : DecidableEq (Except ε α)
  | Except.error e1, Except.error e2 =>
    if h : e1 = e2 then isTrue (by rw [h])
    else isFalse (fun hc => h (Except.error.inj hc))
  | Except.error _, Except.ok _ => isFalse (fun hc => Except.noConfusion hc)
  | Except.ok _, Except.error _ => isFalse (fun hc => Except.noConfusion hc)
  | Except.ok a1, Except.ok a2 =>
    if h : a1 = a2 then isTrue (by rw [h])
    else isFalse (fun hc => h (Except.ok.inj hc))

/-- Exit status of the Python process: 0 on a normal return, 1 when an
exception escapes `main` (CPython prints a traceback and exits 1). -/
def exitCode (r : Except String (List Event)) : Nat :=
  match r with
  | Except.ok _ => 0
  | Except.error _ => 1

/-! ## Helper lemmas -/

lemma appendToLastPage_append (ps : List (List Cell)) (cur : List Cell) (c : Cell) :
    appendToLastPage (ps ++ [cur]) c = ps ++ [cur ++ [c]] := by
  induction ps with
  | nil => rfl
  | cons p rest ih =>
    rcases hq : rest ++ [cur] with _ | ⟨hhead, ttail⟩
    · exact absurd hq (by simp)
    · calc appendToLastPage ((p :: rest) ++ [cur]) c
          = appendToLastPage (p :: hhead :: ttail) c := by rw [List.cons_append, hq]
        _ = p :: appendToLastPage (hhead :: ttail) c := rfl
        _ = p :: appendToLastPage (rest ++ [cur]) c := by rw [hq]
        _ = p :: (rest ++ [cur ++ [c]]) := by rw [ih]
        _ = (p :: rest) ++ [cur ++ [c]] := rfl

lemma foldl_paras_pages (paras : List String) :
    ∀ (ps : List (List Cell)) (cur : List Cell) (f : String) (sz : Nat) (ab : Bool) (m : Nat),
    (paras.foldl (fun pdf para => (FPDF.set_font pdf "Arial" 12).multi_cell 0 10 para)
        ⟨ps ++ [cur], f, sz, ab, m⟩).pages
      = ps ++ [cur ++ paras.map (fun t => Cell.mk "Arial" 12 t)] := by
  induction paras with
  | nil => intro ps cur f sz ab m; simp
  | cons p rest ih =>
    intro ps cur f sz ab m
    have h1 : (FPDF.set_font ⟨ps ++ [cur], f, sz, ab, m⟩ "Arial" 12).multi_cell 0 10 p
        = ⟨ps ++ [cur ++ [Cell.mk "Arial" 12 p]], "Arial", 12, ab, m⟩ := by
      simp [FPDF.set_font, FPDF.multi_cell, appendToLastPage_append]
    rw [List.foldl_cons, h1, ih]
    simp

lemma docx_to_pdf_ok (fs : FS) (input out : String) (paras : List String)
    (h : fs input = some (FileData.docx paras)) :
    docx_to_pdf fs input out =
      Except.ok [Event.write out
        (FileData.pdfdoc [paras.map (fun t => Cell.mk "Arial" 12 t)])] := by
  have hpages :
      (paras.foldl (fun pdf para => (FPDF.set_font pdf "Arial" 12).multi_cell 0 10 para)
          ⟨[] ++ [[]], "", 0, true, 15⟩).pages
        = [] ++ [[] ++ paras.map (fun t => Cell.mk "Arial" 12 t)] :=
    foldl_paras_pages paras [] [] "" 0 true 15
  simp only [List.nil_append] at hpages
  unfold docx_to_pdf Document
  rw [h]
  simp only [FPDF.new, FPDF.set_auto_page_break, FPDF.add_page]
  simp only [List.nil_append, hpages]

lemma dispatch_eq_docxToPdf_iff (s : String) : dispatch s = Branch.docxToPdf ↔ s = "pdf" := by
  unfold dispatch
  split_ifs with h1 h2 h3 h4
  · rcases h1 with rfl | rfl <;> simp
  · subst h2; simp
  · simp [h3]
  · simp at h4
    rcases h4 with rfl | rfl <;> simp
  · constructor
    · intro hc; exact absurd hc (by simp)
    · intro hc; exact absurd hc h3

lemma splitext_fst_append_snd (p : String) : (splitext p).1 ++ (splitext p).2 = p := by
  cases hd : lastIndexOf p.data '.' with
  | none =>
    unfold splitext
    simp only [hd]
    simp
  | some d =>
    unfold splitext
    simp only [hd]
    split_ifs with hc
    · show (⟨p.data.take d⟩ : String) ++ (⟨p.data.drop d⟩ : String) = p
      have heq : (⟨p.data.take d⟩ : String) ++ (⟨p.data.drop d⟩ : String)
          = (⟨p.data.take d ++ p.data.drop d⟩ : String) := rfl
      rw [heq, List.take_append_drop]
    · simp

lemma mainBranch_of_some (fs : FS) (input fmt : String) (d : FileData)
    (h : fs input = some d) :
    mainBranch fs input fmt = dispatch (str_lower fmt) := by
  unfold mainBranch
  rw [h]
  simp

lemma main_eq_pdf_to_image (fs : FS) (input fmt odir : String)
    (hb : mainBranch fs input fmt = Branch.pdfToImage) :
    main fs input fmt odir = Except.ok (pdf_to_image fs input odir (str_lower fmt)) := by
  unfold main
  simp only [hb]

lemma main_eq_pdf_to_docx (fs : FS) (input fmt odir : String)
    (hb : mainBranch fs input fmt = Branch.pdfToDocx) :
    main fs input fmt odir = Except.ok (pdf_to_docx input (path_join odir "output.docx")) := by
  unfold main
  simp only [hb]

lemma main_eq_docx_to_pdf (fs : FS) (input fmt odir : String)
    (hb : mainBranch fs input fmt = Branch.docxToPdf) :
    main fs input fmt odir = docx_to_pdf fs input (path_join odir "output.pdf") := by
  unfold main
  simp only [hb]

lemma str_lower_ne_pdf_of_dispatch_ne (s : String) (b : Branch)
    (hdp : dispatch s = b) (hb : b ≠ Branch.docxToPdf) : s ≠ "pdf" := by
  intro hp
  rw [hp] at hdp
  have hcontra : b = Branch.docxToPdf := by rw [← hdp]; decide
  exact hb hcontra

lemma main_eq_not_found (fs : FS) (input fmt odir : String)
    (hb : mainBranch fs input fmt = Branch.notFound) :
    main fs input fmt odir = Except.ok [Event.print "Error: Input file not found."] := by
  unfold main
  simp only [hb]

lemma main_eq_image_to_image (fs : FS) (input fmt odir : String)
    (hb : mainBranch fs input fmt = Branch.imageToImage) :
    main fs input fmt odir = Except.ok (image_to_image fs input (str_lower fmt)) := by
  unfold main
  simp only [hb]

lemma main_eq_unsupported (fs : FS) (input fmt odir : String)
    (hb : mainBranch fs input fmt = Branch.unsupported) :
    main fs input fmt odir = Except.ok [Event.print "Error: Unsupported output format."] := by
  unfold main
  simp only [hb]

/-! ## Claim theorems -/

/-- Claim C2 (confirmed): for a valid PDF input with `pages.length` pages and
requested format `png` or `jpg`, `main` runs `pdf_to_image`, which writes
exactly one file per page into the output directory, named
`output_1.<ext>` through `output_<page_count>.<ext>` in page order. -/
theorem c2_pdf_to_image_pagewise_outputs (fs : FS) (input odir fmt : String)
    (pages : List Img) (hfmt : fmt = "png" ∨ fmt = "jpg")
    (h : fs input = some (FileData.pdf pages)) :
    main fs input fmt odir =
      Except.ok (pages.enum.map (fun p =>
        Event.write (path_join odir ("output_" ++ toString (p.1 + 1) ++ "." ++ fmt))
          (FileData.img p.2)))
    ∧ (pages.enum.map (fun p =>
        Event.write (path_join odir ("output_" ++ toString (p.1 + 1) ++ "." ++ fmt))
          (FileData.img p.2))).length = pages.length := by
  refine ⟨?_, by simp⟩
  rcases hfmt with rfl | rfl
  · have hb : mainBranch fs input "png" = Branch.pdfToImage := by
      rw [mainBranch_of_some fs input "png" _ h]
      decide
    rw [main_eq_pdf_to_image fs input "png" odir hb]
    have hl : str_lower "png" = "png" := by decide
    rw [hl]
    unfold pdf_to_image convert_from_path
    rw [h]
  · have hb : mainBranch fs input "jpg" = Branch.pdfToImage := by
      rw [mainBranch_of_some fs input "jpg" _ h]
      decide
    rw [main_eq_pdf_to_image fs input "jpg" odir hb]
    have hl : str_lower "jpg" = "jpg" := by decide
    rw [hl]
    unfold pdf_to_image convert_from_path
    rw [h]

/-- Witness for C2 at a concrete two-page PDF. -/
theorem c2_pdf_to_image_pagewise_outputs_witness :
    main (fun p => if p = "doc.pdf" then some (FileData.pdf [7, 8]) else none)
        "doc.pdf" "png" "out" =
      Except.ok (([7, 8] : List Img).enum.map (fun p =>
        Event.write (path_join "out" ("output_" ++ toString (p.1 + 1) ++ "." ++ "png"))
          (FileData.img p.2)))
    ∧ (([7, 8] : List Img).enum.map (fun p =>
        Event.write (path_join "out" ("output_" ++ toString (p.1 + 1) ++ "." ++ "png"))
          (FileData.img p.2))).length = ([7, 8] : List Img).length :=
  c2_pdf_to_image_pagewise_outputs _ "doc.pdf" "out" "png" [7, 8] (Or.inl rfl) (by decide)

/-- Claim C3 (confirmed): for a DOCX input with paragraph list `paras` and
requested format `pdf`, `main` writes exactly one file, at
`path_join odir "output.pdf"`, whose text content is the paragraphs in
original order, every cell in the fixed 12pt Arial font. -/
theorem c3_docx_to_pdf_text_roundtrip (fs : FS) (input fmt odir : String)
    (paras : List String) (hfmt : str_lower fmt = "pdf")
    (h : fs input = some (FileData.docx paras)) :
    main fs input fmt odir =
      Except.ok [Event.write (path_join odir "output.pdf")
        (FileData.pdfdoc [paras.map (fun t => Cell.mk "Arial" 12 t)])]
    ∧ pdfdocText [paras.map (fun t => Cell.mk "Arial" 12 t)] = paras
    ∧ ∀ c ∈ paras.map (fun t => Cell.mk "Arial" 12 t), c.font = "Arial" ∧ c.size = 12 := by
  have hb : mainBranch fs input fmt = Branch.docxToPdf := by
    rw [mainBranch_of_some fs input fmt _ h, hfmt]
    decide
  refine ⟨?_, ?_, ?_⟩
  · rw [main_eq_docx_to_pdf fs input fmt odir hb]
    exact docx_to_pdf_ok fs input _ paras h
  · have hcomp : (Cell.text ∘ fun t => Cell.mk "Arial" 12 t) = id := by
      funext t
      rfl
    simp [pdfdocText, List.map_map, hcomp]
  · intro c hc
    simp only [List.mem_map] at hc
    obtain ⟨t, _, rfl⟩ := hc
    exact ⟨rfl, rfl⟩

/-- Witness for C3 at a concrete two-paragraph DOCX. -/
theorem c3_docx_to_pdf_text_roundtrip_witness :
    main (fun p => if p = "d.docx" then some (FileData.docx ["alpha", "beta"]) else none)
        "d.docx" "pdf" "out" =
      Except.ok [Event.write (path_join "out" "output.pdf")
        (FileData.pdfdoc [(["alpha", "beta"] : List String).map (fun t => Cell.mk "Arial" 12 t)])]
    ∧ pdfdocText [(["alpha", "beta"] : List String).map (fun t => Cell.mk "Arial" 12 t)]
        = ["alpha", "beta"]
    ∧ ∀ c ∈ (["alpha", "beta"] : List String).map (fun t => Cell.mk "Arial" 12 t),
        c.font = "Arial" ∧ c.size = 12 :=
  c3_docx_to_pdf_text_roundtrip _ "d.docx" "pdf" "out" ["alpha", "beta"] (by decide) (by decide)

/-- Claim C4 (confirmed): with an existing input file and requested format
`docx`, `main` only prints the not-implemented diagnostic; the event list
contains no file write. -/
theorem c4_pdf_to_docx_stub (fs : FS) (input fmt odir : String) (d : FileData)
    (hfmt : str_lower fmt = "docx") (h : fs input = some d) :
    main fs input fmt odir =
      Except.ok [Event.print "PDF to DOCX conversion is not implemented yet."]
    ∧ ∀ pth dat, Event.write pth dat ∉
        [Event.print "PDF to DOCX conversion is not implemented yet."] := by
  have hb : mainBranch fs input fmt = Branch.pdfToDocx := by
    rw [mainBranch_of_some fs input fmt d h, hfmt]
    decide
  refine ⟨?_, by simp⟩
  rw [main_eq_pdf_to_docx fs input fmt odir hb]
  rfl

/-- Witness for C4 at a concrete existing file. -/
theorem c4_pdf_to_docx_stub_witness :
    main (fun p => if p = "x.pdf" then some (FileData.pdf [1]) else none)
        "x.pdf" "docx" "out" =
      Except.ok [Event.print "PDF to DOCX conversion is not implemented yet."]
    ∧ ∀ pth dat, Event.write pth dat ∉
        [Event.print "PDF to DOCX conversion is not implemented yet."] :=
  c4_pdf_to_docx_stub _ "x.pdf" "docx" "out" (FileData.pdf [1]) (by decide) (by decide)

/-- Claim C5 (confirmed): when the input path names no existing file, `main`
takes the not-found branch (no conversion routine is dispatched) and its
only event is the not-found diagnostic; nothing is written. -/
theorem c5_missing_input (fs : FS) (input fmt odir : String) (h : fs input = none) :
    main fs input fmt odir = Except.ok [Event.print "Error: Input file not found."]
    ∧ mainBranch fs input fmt = Branch.notFound := by
  have hb : mainBranch fs input fmt = Branch.notFound := by
    unfold mainBranch
    rw [h]
    rfl
  exact ⟨main_eq_not_found fs input fmt odir hb, hb⟩

/-- Witness for C5 at a concrete missing path. -/
theorem c5_missing_input_witness :
    main (fun _ => none) "ghost.pdf" "png" "out"
        = Except.ok [Event.print "Error: Input file not found."]
    ∧ mainBranch (fun _ => none) "ghost.pdf" "png" = Branch.notFound :=
  c5_missing_input (fun _ => none) "ghost.pdf" "png" "out" rfl

/-- Claim C6 (confirmed): the fourth dispatch branch is dead — for every
format string, `dispatch` never selects the image-to-image routine, because
the first branch already matches `jpg` and `png`. -/
theorem c6_image_to_image_branch_dead (s : String) :
    dispatch s ≠ Branch.imageToImage := by
  unfold dispatch
  split_ifs with h1 h2 h3 h4
  · decide
  · decide
  · decide
  · simp only [List.mem_cons, List.mem_singleton, List.not_mem_nil, or_false] at h4
    exact absurd h4 h1
  · decide

/-- Claim C10 (confirmed): for a readable DOCX with zero paragraphs and
requested format `pdf`, `main` still writes `path_join odir "output.pdf"`,
a document of exactly one empty page (the page added before the loop). -/
theorem c10_empty_docx_one_empty_page (fs : FS) (input fmt odir : String)
    (hfmt : str_lower fmt = "pdf") (h : fs input = some (FileData.docx [])) :
    main fs input fmt odir =
      Except.ok [Event.write (path_join odir "output.pdf") (FileData.pdfdoc [[]])] := by
  have hb : mainBranch fs input fmt = Branch.docxToPdf := by
    rw [mainBranch_of_some fs input fmt _ h, hfmt]
    decide
  rw [main_eq_docx_to_pdf fs input fmt odir hb]
  have hout := docx_to_pdf_ok fs input (path_join odir "output.pdf") [] h
  simpa using hout

/-- Witness for C10 at a concrete empty DOCX. -/
theorem c10_empty_docx_one_empty_page_witness :
    main (fun p => if p = "empty.docx" then some (FileData.docx []) else none)
        "empty.docx" "pdf" "out" =
      Except.ok [Event.write (path_join "out" "output.pdf") (FileData.pdfdoc [[]])] :=
  c10_empty_docx_one_empty_page _ "empty.docx" "pdf" "out" (by decide) (by decide)

/-- Claim C7 (confirmed): the branch taken is a function of the lowercased
output-format string alone — two invocations whose formats agree up to case
(and whose input files exist, so the dispatch is reached) take the same
branch, whatever the input paths and file contents are.  `mainBranch` takes
no output-directory argument at all, mirroring lines 56-65 of the source. -/
theorem c7_branch_function_of_lower_format (fs1 fs2 : FS) (in1 in2 f1 f2 : String)
    (h1 : (fs1 in1).isSome = true) (h2 : (fs2 in2).isSome = true)
    (heq : str_lower f1 = str_lower f2) :
    mainBranch fs1 in1 f1 = mainBranch fs2 in2 f2 := by
  obtain ⟨d1, hd1⟩ := Option.isSome_iff_exists.mp h1
  obtain ⟨d2, hd2⟩ := Option.isSome_iff_exists.mp h2
  rw [mainBranch_of_some fs1 in1 f1 d1 hd1, mainBranch_of_some fs2 in2 f2 d2 hd2, heq]

/-- Witness for C7: a PDF file under format `JPG` and an image file under
format `jpg` take the same branch. -/
theorem c7_branch_function_of_lower_format_witness :
    mainBranch (fun p => if p = "doc.pdf" then some (FileData.pdf [5]) else none)
        "doc.pdf" "JPG"
      = mainBranch (fun p => if p = "photo.png" then some (FileData.img 9) else none)
        "photo.png" "jpg" :=
  c7_branch_function_of_lower_format _ _ "doc.pdf" "photo.png" "JPG" "jpg"
    (by decide) (by decide) (by decide)

/-- Claim C8 (confirmed): `image_to_image` writes its single output at the
input file's own directory and basename with the new extension appended —
`(splitext input).1 ++ "." ++ fmt` — and, taking no output-directory
argument (converter.py line 32), cannot place it in the output directory. -/
theorem c8_image_to_image_sibling_output (fs : FS) (input fmt : String) (i : Img)
    (h : fs input = some (FileData.img i)) :
    image_to_image fs input fmt =
      [Event.write ((splitext input).1 ++ ("." ++ fmt)) (FileData.img i)] := by
  unfold image_to_image image_open
  rw [h]

/-- Witness for C8 at a concrete image path. -/
theorem c8_image_to_image_sibling_output_witness :
    image_to_image (fun p => if p = "dir/pic.png" then some (FileData.img 4) else none)
        "dir/pic.png" "bmp" =
      [Event.write ((splitext "dir/pic.png").1 ++ ("." ++ "bmp")) (FileData.img 4)] :=
  c8_image_to_image_sibling_output _ "dir/pic.png" "bmp" 4 (by decide)

/-- Claim C9 (confirmed): when the input path's extension already equals a
dot followed by the requested format, the output path computed by
`image_to_image` is the input path itself, so a successful save overwrites
the input in place. -/
theorem c9_image_to_image_in_place (fs : FS) (input fmt : String) (i : Img)
    (hext : (splitext input).2 = "." ++ fmt)
    (h : fs input = some (FileData.img i)) :
    image_to_image fs input fmt = [Event.write input (FileData.img i)] := by
  have hp : (splitext input).1 ++ ("." ++ fmt) = input := by
    rw [← hext, splitext_fst_append_snd]
  rw [c8_image_to_image_sibling_output fs input fmt i h, hp]

/-- Witness for C9: converting `pic.png` to `png` writes back to `pic.png`. -/
theorem c9_image_to_image_in_place_witness :
    image_to_image (fun p => if p = "pic.png" then some (FileData.img 4) else none)
        "pic.png" "png" = [Event.write "pic.png" (FileData.img 4)] :=
  c9_image_to_image_in_place _ "pic.png" "png" 4 (by decide) (by decide)

/-- Claim C1 (counterexample): with an existing input file that is not a
DOCX and requested format `pdf`, the error raised inside `docx_to_pdf`
propagates past `main` and the process exit status is 1, not 0. -/
theorem c1_counterexample_docx_to_pdf_raises :
    main (fun p => if p = "notes.txt" then some (FileData.other "junk") else none)
        "notes.txt" "pdf" "out" = Except.error "File is not a zip file"
    ∧ exitCode (main (fun p => if p = "notes.txt" then some (FileData.other "junk") else none)
        "notes.txt" "pdf" "out") = 1 := by
  constructor
  · decide
  · decide

/-- Claim C1 (amended): `pdf_to_image` and `image_to_image` swallow their
errors, and the not-found, stub and unsupported paths only print, so those
runs exit 0; but `docx_to_pdf` has no handler, so the run raises — and the
process exits nonzero — exactly when the input file exists, the lowercased
format is `pdf`, and the file is not a readable DOCX. -/
theorem c1_exit_status_iff (fs : FS) (input fmt odir : String) :
    exitCode (main fs input fmt odir) = 0 ↔
      (fs input = none ∨ str_lower fmt ≠ "pdf" ∨
        ∃ paras, fs input = some (FileData.docx paras)) := by
  cases hfs : fs input with
  | none =>
    have hb : mainBranch fs input fmt = Branch.notFound := by
      unfold mainBranch
      rw [hfs]
      rfl
    rw [main_eq_not_found fs input fmt odir hb]
    exact iff_of_true rfl (Or.inl rfl)
  | some d =>
    have hb : mainBranch fs input fmt = dispatch (str_lower fmt) :=
      mainBranch_of_some fs input fmt d hfs
    cases hdp : dispatch (str_lower fmt) with
    | notFound =>
      rw [main_eq_not_found fs input fmt odir (hb.trans hdp)]
      exact iff_of_true rfl
        (Or.inr (Or.inl (str_lower_ne_pdf_of_dispatch_ne _ _ hdp (by decide))))
    | pdfToImage =>
      rw [main_eq_pdf_to_image fs input fmt odir (hb.trans hdp)]
      exact iff_of_true rfl
        (Or.inr (Or.inl (str_lower_ne_pdf_of_dispatch_ne _ _ hdp (by decide))))
    | pdfToDocx =>
      rw [main_eq_pdf_to_docx fs input fmt odir (hb.trans hdp)]
      exact iff_of_true rfl
        (Or.inr (Or.inl (str_lower_ne_pdf_of_dispatch_ne _ _ hdp (by decide))))
    | imageToImage =>
      rw [main_eq_image_to_image fs input fmt odir (hb.trans hdp)]
      exact iff_of_true rfl
        (Or.inr (Or.inl (str_lower_ne_pdf_of_dispatch_ne _ _ hdp (by decide))))
    | unsupported =>
      rw [main_eq_unsupported fs input fmt odir (hb.trans hdp)]
      exact iff_of_true rfl
        (Or.inr (Or.inl (str_lower_ne_pdf_of_dispatch_ne _ _ hdp (by decide))))
    | docxToPdf =>
      have hfmtpdf : str_lower fmt = "pdf" := (dispatch_eq_docxToPdf_iff _).mp hdp
      rw [main_eq_docx_to_pdf fs input fmt odir (hb.trans hdp)]
      unfold docx_to_pdf Document
      rw [hfs]
      cases d with
      | docx paras => exact iff_of_true rfl (Or.inr (Or.inr ⟨paras, rfl⟩))
      | pdf pages =>
        refine iff_of_false (fun hc => Nat.one_ne_zero hc) ?_
        rintro (hnone | hne | ⟨paras, hps⟩)
        · exact Option.noConfusion hnone
        · exact hne hfmtpdf
        · simp at hps
      | img i =>
        refine iff_of_false (fun hc => Nat.one_ne_zero hc) ?_
        rintro (hnone | hne | ⟨paras, hps⟩)
        · exact Option.noConfusion hnone
        · exact hne hfmtpdf
        · simp at hps
      | pdfdoc pgs =>
        refine iff_of_false (fun hc => Nat.one_ne_zero hc) ?_
        rintro (hnone | hne | ⟨paras, hps⟩)
        · exact Option.noConfusion hnone
        · exact hne hfmtpdf
        · simp at hps
      | other raw =>
        refine iff_of_false (fun hc => Nat.one_ne_zero hc) ?_
        rintro (hnone | hne | ⟨paras, hps⟩)
        · exact Option.noConfusion hnone
        · exact hne hfmtpdf
        · simp at hps

end Converter
